import Mathlib

/-!
Verification of the Linux virtual-display layer (`src/platform/linux/virtual_display.cpp`)
against its specification.

The development shallowly embeds the source file:
* the EDID synthesizer (`calculate_edid_checksum`, `create_detailed_timing_descriptor`,
  `generate_edid_for_resolution`) as pure functions on `List Nat` byte lists,
  with machine-integer truncations written as explicit `% 2^w`;
* the driver/registry state machine (`openVDisplayDevice`, `closeVDisplayDevice`,
  `createVirtualDisplay`, `removeVirtualDisplay`, `changeDisplaySettings`,
  `startPingThread`) as explicit state-passing functions over a `VState` record,
  with the dynamically loaded EVDI calls modelled as an environment of oracles and
  with hardware side effects recorded in an explicit event list;
* the watchdog thread body as a loop over a finite trace of per-wakeup observations.

The two quantities of the generic detailed-timing branch that the C code computes in
floating point (`pixel_clock_khz` and `h_blank`) are taken as parameters
(`GenericTiming`), so every theorem about the EDID holds for every value the
floating-point computation could produce.
-/

namespace VDISPLAY

/-- Checksum of a 128-byte EDID block (`calculate_edid_checksum`): the running
`uint8_t` sum of all bytes but the last, subtracted from 256 and narrowed to a byte.
Here the argument is the block body (all bytes except the final checksum byte). -/
def calculate_edid_checksum (body : List Nat) : Nat :=
  (256 - List.foldl (fun a b => (a + b) % 256) 0 body) % 256

/-- The two values of the generic (non-hardcoded) detailed-timing branch that the C
code derives with `double` arithmetic and casts to `uint32_t`.  They are kept
abstract so that results hold for any outcome of the floating-point computation. -/
structure GenericTiming where
  pixel_clock_khz : Nat
  h_blank : Nat

/-- Timing parameter block chosen inside `create_detailed_timing_descriptor`. -/
structure TimingParams where
  h_blank : Nat
  v_blank : Nat
  h_front : Nat
  h_sync : Nat
  v_front : Nat
  v_sync : Nat
  pixel_clock_khz : Nat

/-- Parameter selection of `create_detailed_timing_descriptor`: four hardcoded
resolutions, otherwise the generic branch (`v_blank = 45`, fronts and syncs derived
from the floating-point `h_blank`). -/
def timing_params (g : GenericTiming) (width height : Nat) : TimingParams :=
  if width = 3840 ∧ height = 2160 then
    ⟨560, 90, 176, 88, 8, 10, 533250⟩
  else if width = 2560 ∧ height = 1440 then
    ⟨160, 44, 48, 32, 3, 5, 241500⟩
  else if width = 1920 ∧ height = 1080 then
    ⟨280, 45, 88, 44, 4, 5, 148500⟩
  else if width = 1280 ∧ height = 720 then
    ⟨370, 30, 110, 40, 5, 5, 74250⟩
  else
    ⟨g.h_blank, 45, g.h_blank / 4, g.h_blank / 4, 3, 5, g.pixel_clock_khz⟩

/-- The 18-byte detailed timing descriptor (`create_detailed_timing_descriptor`).
Byte masks `& 0xFF`, `& 0x0F`, `& 0x03` and shifts become `% 256`, `% 16`, `% 4`
and `/ 256`, `/ 16`; the `uint16_t` narrowing of the pixel clock is `% 65536`; the
`uint32_t` products for the physical size are reduced `% 2^32` before division. -/
def create_detailed_timing_descriptor (g : GenericTiming) (width height : Nat) : List Nat :=
  let p := timing_params g width height
  let h_active := width
  let v_active := height
  let pixel_clock := p.pixel_clock_khz / 10 % 65536
  let h_size_mm := width * 600 % 4294967296 / 3840
  let v_size_mm := height * 340 % 4294967296 / 2160
  [pixel_clock % 256,
   pixel_clock / 256 % 256,
   h_active % 256,
   p.h_blank % 256,
   (h_active / 256 % 16) * 16 + p.h_blank / 256 % 16,
   v_active % 256,
   p.v_blank % 256,
   (v_active / 256 % 16) * 16 + p.v_blank / 256 % 16,
   p.h_front % 256,
   p.h_sync % 256,
   (p.v_front % 16) * 16 + p.v_sync % 16,
   (p.h_front / 256 % 4) * 64 + (p.h_sync / 256 % 4) * 16 +
     (p.v_front / 16 % 4) * 4 + p.v_sync / 16 % 4,
   h_size_mm % 256,
   v_size_mm % 256,
   (h_size_mm / 256 % 16) * 16 + v_size_mm / 256 % 16,
   0,
   0,
   0x1E]

/-- Base-block bytes 0..53 of `generate_edid_for_resolution`: header, vendor and
product identity, version, features, chromaticity, established and standard
timings. -/
def base_bytes_0_53 : List Nat :=
  [0x00, 0xFF, 0xFF, 0xFF, 0xFF, 0xFF, 0xFF, 0x00,
   0x06, 0x4C,
   0x01, 0x00,
   0x01, 0x00, 0x00, 0x00,
   0x01, 0x22,
   0x01, 0x04,
   0xB5,
   60, 34,
   0x78,
   0x3A,
   0xFC, 0x81, 0xA4, 0x55, 0x4D, 0x9D, 0x25, 0x12, 0x50, 0x54,
   0x21, 0x08, 0x00,
   0xD1, 0xC0, 0xB3, 0x00, 0xA9, 0xC0, 0x81, 0x80,
   0x81, 0xC0, 0x01, 0x01, 0x01, 0x01, 0x01, 0x01]

/-- Base-block bytes 72..125: display-name descriptor ("APOLLO VDISP"), display
range limits descriptor, and the dummy fourth descriptor. -/
def base_bytes_72_125 : List Nat :=
  [0x00, 0x00, 0x00, 0xFC, 0x00,
   65, 80, 79, 76, 76, 79, 32, 86, 68, 73, 83, 80, 10,
   0x00, 0x00, 0x00, 0xFD, 0x00,
   0x18, 0x78, 0x0F, 0xA0, 0x78, 0x00, 0x0A,
   0x20, 0x20, 0x20, 0x20, 0x20, 0x20,
   0x00, 0x00, 0x00, 0x10, 0x00,
   0x20, 0x20, 0x20, 0x20, 0x20, 0x20, 0x20, 0x20, 0x20, 0x20, 0x20, 0x20, 0x20]

/-- The test deciding whether a CEA extension block is produced
(`bool needs_extension = (width > 1920 || height > 1080)`). -/
def needs_extension (width height : Nat) : Bool :=
  width > 1920 || height > 1080

/-- The base EDID block (bytes 0..127): fixed fields, the detailed timing
descriptor for the requested mode at offset 54, the extension flag at offset 126
and the checksum at offset 127. -/
def edid_block0 (g : GenericTiming) (width height : Nat) : List Nat :=
  let body := base_bytes_0_53 ++ create_detailed_timing_descriptor g width height ++
    base_bytes_72_125 ++ [if needs_extension width height then 1 else 0]
  body ++ [calculate_edid_checksum body]

/-- The detailed timing descriptor written into the extension block for 4K-wide
modes: `create_detailed_timing_descriptor(&edid[152], 3840, 2160, 60)` always takes
the hardcoded 3840x2160 branch, so the `GenericTiming` argument is irrelevant. -/
def dtd_4k : List Nat :=
  create_detailed_timing_descriptor ⟨0, 0⟩ 3840 2160

/-- The CEA-861 extension block (bytes 128..255 of the buffer): header, video data
block, HDMI vendor-specific data block, the 4K detailed timing descriptor when
`width >= 3840` (otherwise the zeroes left by `memset`), zero padding, and its own
checksum byte. -/
def edid_block1 (width : Nat) : List Nat :=
  let body := [0x02, 0x03, 0x18, 0x72,
    0x47, 0x90, 0x04, 0x03, 0x5F, 0x60, 0x61, 0x65,
    0x67, 0x03, 0x0C, 0x00, 0x10, 0x00, 0x00, 0x78] ++
    [0, 0, 0, 0] ++
    (if width ≥ 3840 then dtd_4k else List.replicate 18 0) ++
    List.replicate 85 0
  body ++ [calculate_edid_checksum body]

/-- The 256-byte static buffer produced by `generate_edid_for_resolution`: base
block, then the extension block when `needs_extension`, otherwise the zeroes left
by the initial `memset`. -/
def generate_edid_for_resolution (g : GenericTiming) (width height : Nat) : List Nat :=
  edid_block0 g width height ++
    (if needs_extension width height then edid_block1 width else List.replicate 128 0)

/-- The payload length callers declare when connecting
(`edid_size = (width > 1920 || height > 1080) ? 256 : 128`, in
`createVirtualDisplay` and `changeDisplaySettings`). -/
def edid_size (width height : Nat) : Nat :=
  if width > 1920 || height > 1080 then 256 else 128

/-- The EDID descriptor as actually consumed: the declared-length prefix of the
synthesized buffer. -/
def synthesized_edid (g : GenericTiming) (width height : Nat) : List Nat :=
  (generate_edid_for_resolution g width height).take (edid_size width height)

/-! ## Driver state machine -/

/-- Driver status enumeration (`DRIVER_STATUS` in `virtual_display.h`). -/
inductive DRIVER_STATUS where
  | UNKNOWN
  | OK
  | FAILED
  | VERSION_INCOMPATIBLE
  | WATCHDOG_FAILED
  | NOT_SUPPORTED
deriving DecidableEq, Repr

/-- One registry record (`struct VirtualDisplayInfo`).  The opaque `evdi_handle`
is a numeric identifier, `none` standing for a null pointer; `device_index` and
`drm_fd` are C `int`s with −1 as the "absent" sentinel. -/
structure VirtualDisplayInfo where
  name : String
  guid_str : String
  width : Nat
  height : Nat
  fps : Nat
  device_index : Int
  handle : Option Nat
  drm_fd : Int
  active : Bool
  using_evdi : Bool
deriving DecidableEq, Repr

/-- Hardware side effects issued by the operations, in program order. -/
inductive Event where
  | connect (handle : Nat) (edid_len : Nat)
  | disconnect (handle : Nat)
  | closeHandle (handle : Nat)
  | openFd (device : Nat)
  | closeFd (fd : Int)
deriving DecidableEq, Repr

/-- The global mutable state of the translation unit: `driver_status`,
`watchdog_running`, `evdi.loaded`, `evdi_available` and the `virtual_displays`
map (modelled as an association list with unique keys). -/
structure VState where
  driver_status : DRIVER_STATUS
  watchdog_running : Bool
  evdi_loaded : Bool
  evdi_available : Bool
  virtual_displays : List (String × VirtualDisplayInfo)
deriving DecidableEq, Repr

/-- The initial state of the translation unit's globals. -/
def initState : VState :=
  ⟨DRIVER_STATUS.UNKNOWN, false, false, false, []⟩

/-- Map lookup (`std::map::find`). -/
def mapLookup (m : List (String × VirtualDisplayInfo)) (k : String) :
    Option VirtualDisplayInfo :=
  match m with
  | [] => none
  | (k', v) :: rest => if k' = k then some v else mapLookup rest k

/-- Map insert-or-assign (`virtual_displays[guid_str] = vdinfo`). -/
def mapInsert (m : List (String × VirtualDisplayInfo)) (k : String)
    (v : VirtualDisplayInfo) : List (String × VirtualDisplayInfo) :=
  match m with
  | [] => [(k, v)]
  | (k', v') :: rest =>
    if k' = k then (k', v) :: rest else (k', v') :: mapInsert rest k v

/-- Map erase by key (`virtual_displays.erase(it)`). -/
def mapErase (m : List (String × VirtualDisplayInfo)) (k : String) :
    List (String × VirtualDisplayInfo) :=
  match m with
  | [] => []
  | (k', v') :: rest => if k' = k then rest else (k', v') :: mapErase rest k

/-- Status returned by `evdi_check_device`. -/
inductive evdi_device_status where
  | EVDI_AVAILABLE
  | EVDI_UNRECOGNIZED
  | EVDI_NOT_PRESENT
deriving DecidableEq, Repr

/-- Oracles for the dynamically loaded EVDI entry points and `::open`, making the
hardware's responses explicit inputs: `check_device` per slot, `add_device`
(indexed by the slot at which it is called), `open_dev` returning a handle or a
null pointer, and `drm_open` returning a file descriptor or −1. -/
structure EvdiEnv where
  check_device : Nat → evdi_device_status
  add_device : Nat → Int
  open_dev : Nat → Option Nat
  drm_open : Nat → Int

/-- Environment of `openVDisplayDevice`: whether `load_evdi_library` succeeds on a
fresh load and whether `check_evdi_module_loaded` reports the kernel module. -/
structure OpenEnv where
  lib_load_ok : Bool
  module_loaded : Bool

/-- Display name derivation (`generate_display_name`): the fixed tag "VIRTUAL-"
followed by the first 8 characters of the UUID string. -/
def generate_display_name (guid_str : String) : String :=
  "VIRTUAL-" ++ guid_str.take 8

/-- The slot-scanning loop of `find_available_evdi_device`, with explicit fuel for
the 16-slot bound. -/
def find_from (env : EvdiEnv) : Nat → Nat → Int
  | 0, _ => -1
  | fuel + 1, i =>
    match env.check_device i with
    | .EVDI_AVAILABLE => Int.ofNat i
    | .EVDI_NOT_PRESENT =>
      if env.add_device i ≥ 0 then env.add_device i else find_from env fuel (i + 1)
    | .EVDI_UNRECOGNIZED => find_from env fuel (i + 1)

/-- Slot selection (`find_available_evdi_device`): scan slots 0..15, taking the
first available one, provisioning a new device when a slot is not present. -/
def find_available_evdi_device (env : EvdiEnv) : Int :=
  find_from env 16 0

/-- Driver initialization (`openVDisplayDevice`): an immediate return when already
`OK`; otherwise the library is loaded (sticky `evdi.loaded`), the kernel module is
checked, hardware availability is derived, and the status always becomes `OK`. -/
def openVDisplayDevice (env : OpenEnv) (st : VState) : VState × DRIVER_STATUS :=
  if st.driver_status = DRIVER_STATUS.OK then
    (st, st.driver_status)
  else
    let load_ok := st.evdi_loaded || env.lib_load_ok
    let avail := load_ok && env.module_loaded
    ({ st with evdi_loaded := load_ok, evdi_available := avail,
               driver_status := DRIVER_STATUS.OK }, DRIVER_STATUS.OK)

/-- Teardown events for one registry record, as emitted by `closeVDisplayDevice`. -/
def teardown_events (vd : VirtualDisplayInfo) : List Event :=
  if vd.active then
    (if vd.using_evdi && vd.handle.isSome then
      [Event.disconnect (vd.handle.getD 0), Event.closeHandle (vd.handle.getD 0)]
    else []) ++
    (if vd.drm_fd ≥ 0 then [Event.closeFd vd.drm_fd] else [])
  else []

/-- Driver shutdown (`closeVDisplayDevice`): stops the watchdog, disconnects and
closes every active hardware-backed record and its device node, clears the
registry, unloads the library and resets the status to `UNKNOWN`. -/
def closeVDisplayDevice (st : VState) : VState × List Event :=
  ({ st with watchdog_running := false,
             virtual_displays := [],
             evdi_loaded := false,
             driver_status := DRIVER_STATUS.UNKNOWN },
   st.virtual_displays.flatMap (fun p => teardown_events p.2))

/-- Watchdog start (`startPingThread`): returns `true` always; when the flag is
already set it returns immediately, otherwise it sets the flag and spawns the
thread.  The last component records whether a new thread was spawned. -/
def startPingThread (st : VState) : VState × Bool × Bool :=
  if st.watchdog_running then
    (st, true, false)
  else
    ({ st with watchdog_running := true }, true, true)

/-- Display creation (`createVirtualDisplay`): fails (empty name) unless the
status is `OK`; otherwise builds a passthrough record, upgrades it to a
hardware-backed one when EVDI is available and a slot can be opened, and
insert-or-assigns it into the registry keyed by the UUID string. -/
def createVirtualDisplay (env : EvdiEnv) (st : VState) (guid_str : String)
    (width height fps : Nat) : VState × String × List Event :=
  if st.driver_status ≠ DRIVER_STATUS.OK then
    (st, "", [])
  else
    let display_name := generate_display_name guid_str
    let vd0 : VirtualDisplayInfo :=
      { name := display_name, guid_str := guid_str, width := width, height := height,
        fps := fps, device_index := -1, handle := none, drm_fd := -1,
        active := true, using_evdi := false }
    let step :=
      if st.evdi_available then
        let device := find_available_evdi_device env
        if device ≥ 0 then
          match env.open_dev device.toNat with
          | some handle =>
            ({ vd0 with device_index := device, handle := some handle,
                        drm_fd := env.drm_open device.toNat, using_evdi := true },
             [Event.connect handle (edid_size width height),
              Event.openFd device.toNat])
          | none => (vd0, [])
        else (vd0, [])
      else (vd0, [])
    ({ st with virtual_displays := mapInsert st.virtual_displays guid_str step.1 },
     display_name, step.2)

/-- Display removal (`removeVirtualDisplay`): not-found reports `false`;
otherwise disconnects and closes a hardware-backed handle, closes the device
node, and erases the record. -/
def removeVirtualDisplay (st : VState) (guid_str : String) :
    VState × Bool × List Event :=
  match mapLookup st.virtual_displays guid_str with
  | none => (st, false, [])
  | some vd =>
    ({ st with virtual_displays := mapErase st.virtual_displays guid_str },
     true,
     (if vd.using_evdi && vd.handle.isSome then
       [Event.disconnect (vd.handle.getD 0), Event.closeHandle (vd.handle.getD 0)]
     else []) ++
     (if vd.drm_fd ≥ 0 then [Event.closeFd vd.drm_fd] else []))

/-- C `int` → `uint32_t` conversion (modular). -/
def toU32 (x : Int) : Nat :=
  (x % 4294967296).toNat

/-- The payload-length test of `changeDisplaySettings` on its `int` arguments. -/
def edid_size_int (width height : Int) : Nat :=
  if width > 1920 || height > 1080 then 256 else 128

/-- The registry scan of `changeDisplaySettings`: the first record whose name
matches is updated in place (and, when hardware-backed, disconnected and
reconnected with a fresh EDID); the scan stops there. -/
def updateDisplayList (deviceName : String) (width height refresh : Int) :
    List (String × VirtualDisplayInfo) →
      List (String × VirtualDisplayInfo) × Int × List Event
  | [] => ([], 0, [])
  | (k, vd) :: rest =>
    if vd.name = deviceName then
      let vd' := { vd with width := toU32 width, height := toU32 height,
                           fps := toU32 refresh }
      ((k, vd') :: rest, 0,
       if vd.using_evdi && vd.handle.isSome then
         [Event.disconnect (vd.handle.getD 0),
          Event.connect (vd.handle.getD 0) (edid_size_int width height)]
       else [])
    else
      let r := updateDisplayList deviceName width height refresh rest
      ((k, vd) :: r.1, r.2.1, r.2.2)

/-- Reconfiguration (`changeDisplaySettings`): returns status 0 whether or not
the name is found. -/
def changeDisplaySettings (st : VState) (deviceName : String)
    (width height refresh : Int) : VState × Int × List Event :=
  let r := updateDisplayList deviceName width height refresh st.virtual_displays
  ({ st with virtual_displays := r.1 }, r.2.1, r.2.2)

/-- Reconfiguration with the isolated flag (`changeDisplaySettings2`): the flag
only affects logging. -/
def changeDisplaySettings2 (st : VState) (deviceName : String)
    (width height refresh : Int) (_bApplyIsolated : Bool) :
    VState × Int × List Event :=
  changeDisplaySettings st deviceName width height refresh

/-! ## Watchdog thread body -/

/-- Whether the watchdog queries a record's liveness
(`vdinfo.active && vdinfo.using_evdi && vdinfo.handle`). -/
def record_relevant (vd : VirtualDisplayInfo) : Bool :=
  vd.active && vd.using_evdi && vd.handle.isSome

/-- One registry scan of the watchdog: `true` exactly when it reaches a relevant
record whose `evdi_get_event_ready` result is negative (the scan stops there). -/
def scan_bad (liveness : Nat → Int) :
    List (String × VirtualDisplayInfo) → Bool
  | [] => false
  | (_, vd) :: rest =>
    if record_relevant vd && liveness (vd.handle.getD 0) < 0 then true
    else scan_bad liveness rest

/-- What the watchdog observes at one wakeup: a possible concurrent write to
`watchdog_running` performed during the sleep, the registry contents, and the
per-handle liveness results. -/
structure WatchIter where
  flagWrite : Option Bool
  regs : List (String × VirtualDisplayInfo)
  liveness : Nat → Int

/-- The watchdog loop body (`startPingThread`'s thread), run over a finite trace
of wakeups.  Result: the value of `watchdog_running` when the thread exits (the
thread itself never writes it), the number of failure-callback invocations, and
whether the thread exited through the failure path.  An exhausted trace means the
thread is still looping. -/
def watchdogLoop (flag : Bool) : List WatchIter → Bool × Nat × Bool
  | [] => (flag, 0, false)
  | it :: rest =>
    if flag then
      let flag2 := it.flagWrite.getD flag
      if flag2 then
        if scan_bad it.liveness it.regs then (flag2, 1, true)
        else watchdogLoop flag2 rest
      else (flag2, 0, false)
    else (flag, 0, false)

/-! ## Concrete instances used by the witnesses -/

/-- An environment with no usable EVDI devices. -/
def envUnavail : EvdiEnv :=
  ⟨fun _ => evdi_device_status.EVDI_UNRECOGNIZED, fun _ => -1,
   fun _ => none, fun _ => -1⟩

/-- A freshly opened driver state with no hardware binding and empty registry. -/
def stReady : VState :=
  ⟨DRIVER_STATUS.OK, false, false, false, []⟩

/-- A hardware-backed registry record used by the watchdog witnesses. -/
def hwRec : VirtualDisplayInfo :=
  { name := "VIRTUAL-0123abcd", guid_str := "0123abcd-0", width := 1920,
    height := 1080, fps := 60000, device_index := 0, handle := some 5,
    drm_fd := 3, active := true, using_evdi := true }

/-- A wakeup at which the only record reports negative liveness. -/
def badIter : WatchIter :=
  ⟨none, [("0123abcd-0", hwRec)], fun _ => -1⟩

/-- A state in which the watchdog flag was left set. -/
def stRunning : VState :=
  ⟨DRIVER_STATUS.OK, true, false, false, []⟩

/-- The record invariant of the spec: hardware-backed records have a handle and
a valid slot, passthrough records have neither. -/
def recInv (vd : VirtualDisplayInfo) : Prop :=
  (vd.using_evdi = true → vd.handle ≠ none ∧ vd.device_index ≥ 0) ∧
  (vd.using_evdi = false → vd.handle = none ∧ vd.device_index = -1)

/-- The registry invariant: every stored record satisfies `recInv`. -/
def regInv (st : VState) : Prop :=
  ∀ p ∈ st.virtual_displays, recInv p.2

/-- A ready state already holding one record. -/
def stWithOne : VState :=
  ⟨DRIVER_STATUS.OK, false, false, false, [("0123abcd-0", hwRec)]⟩


-- Basic length facts

theorem create_dtd_length (g : GenericTiming) (w h : Nat) :
    (create_detailed_timing_descriptor g w h).length = 18 := rfl

theorem edid_block0_length (g : GenericTiming) (w h : Nat) :
    (edid_block0 g w h).length = 128 := by
  simp [edid_block0, base_bytes_0_53, base_bytes_72_125, create_dtd_length]

theorem edid_block1_length (w : Nat) : (edid_block1 w).length = 128 := by
  unfold edid_block1
  split <;> simp [dtd_4k, create_dtd_length]

theorem generate_edid_length (g : GenericTiming) (w h : Nat) :
    (generate_edid_for_resolution g w h).length = 256 := by
  unfold generate_edid_for_resolution
  split <;> simp [edid_block0_length, edid_block1_length]

-- Checksum correctness

theorem foldl_add_mod (l : List Nat) (a : Nat) (ha : a < 256) :
    List.foldl (fun x y => (x + y) % 256) a l = (a + l.sum) % 256 := by
  induction l generalizing a with
  | nil => simpa using (Nat.mod_eq_of_lt ha).symm
  | cons b t ih =>
    simp only [List.foldl_cons, List.sum_cons]
    rw [ih ((a + b) % 256) (Nat.mod_lt _ (by omega))]
    omega

theorem sum_with_checksum (body : List Nat) :
    (body.sum + calculate_edid_checksum body) % 256 = 0 := by
  unfold calculate_edid_checksum
  rw [foldl_add_mod body 0 (by omega)]
  omega

theorem block_sum_zero (body : List Nat) :
    (body ++ [calculate_edid_checksum body]).sum % 256 = 0 := by
  rw [List.sum_append, List.sum_cons, List.sum_nil, Nat.add_zero]
  exact sum_with_checksum body

theorem edid_block0_sum (g : GenericTiming) (w h : Nat) :
    (edid_block0 g w h).sum % 256 = 0 := by
  simp only [edid_block0]
  exact block_sum_zero _

theorem edid_block1_sum (w : Nat) : (edid_block1 w).sum % 256 = 0 := by
  simp only [edid_block1]
  exact block_sum_zero _

/-- C1: for every width, height (and any outcome of the floating-point generic
timing computation), the first 128 bytes of the synthesized EDID sum to 0 mod 256,
and whenever the CEA extension block is produced (width > 1920 or height > 1080)
its 128 bytes also sum to 0 mod 256. -/
theorem edid_blocks_checksum_zero (g : GenericTiming) (w h : Nat) :
    ((generate_edid_for_resolution g w h).take 128).sum % 256 = 0 ∧
    (needs_extension w h = true →
      ((generate_edid_for_resolution g w h).drop 128).sum % 256 = 0) := by
  constructor
  · rw [generate_edid_for_resolution, List.take_left' (edid_block0_length g w h)]
    exact edid_block0_sum g w h
  · intro hne
    rw [generate_edid_for_resolution, List.drop_left' (edid_block0_length g w h), hne]
    simp only [if_true]
    exact edid_block1_sum w

/-- C2: the synthesized EDID payload is exactly 128 bytes when width ≤ 1920 and
height ≤ 1080 and exactly 256 bytes otherwise; the length callers declare when
connecting (`edid_size`) is 256 exactly when the synthesizer's own extension test
fires, and when it does not fire the second half of the buffer is untouched
zeroes. -/
theorem edid_size_matches (g : GenericTiming) (w h : Nat) :
    ((synthesized_edid g w h).length = if w ≤ 1920 ∧ h ≤ 1080 then 128 else 256) ∧
    (edid_size w h = 256 ↔ needs_extension w h = true) ∧
    (edid_size w h = if needs_extension w h then 256 else 128) ∧
    (needs_extension w h = false →
      (generate_edid_for_resolution g w h).drop 128 = List.replicate 128 0) := by
  refine ⟨?_, ?_, ?_, ?_⟩
  · simp only [synthesized_edid, List.length_take, generate_edid_length, edid_size]
    by_cases hw : 1920 < w
    · rw [if_pos (by simp [hw]), if_neg (by omega)]
      rfl
    · by_cases hh : 1080 < h
      · rw [if_pos (by simp [hh]), if_neg (by omega)]
        rfl
      · rw [if_neg (by simp [hw, hh]), if_pos (by omega)]
        rfl
  · simp only [edid_size, needs_extension]
    split <;> simp_all
  · simp only [edid_size, needs_extension]
  · intro hne
    rw [generate_edid_for_resolution, List.drop_left' (edid_block0_length g w h), hne]
    simp only [Bool.false_eq_true, if_false]

/-- Witness for C1 at 3840x2160: the extension hypothesis holds and both block
sums vanish. -/
theorem edid_blocks_checksum_zero_witness :
    ((generate_edid_for_resolution ⟨0, 0⟩ 3840 2160).take 128).sum % 256 = 0 ∧
    ((generate_edid_for_resolution ⟨0, 0⟩ 3840 2160).drop 128).sum % 256 = 0 :=
  ⟨(edid_blocks_checksum_zero ⟨0, 0⟩ 3840 2160).1,
   (edid_blocks_checksum_zero ⟨0, 0⟩ 3840 2160).2 (by decide)⟩

/-- Witness for C2 at 800x600: the payload is 128 bytes and the unused extension
half of the buffer is all zeroes. -/
theorem edid_size_matches_witness :
    ((synthesized_edid ⟨0, 0⟩ 800 600).length =
      if (800 : Nat) ≤ 1920 ∧ (600 : Nat) ≤ 1080 then 128 else 256) ∧
    (generate_edid_for_resolution ⟨0, 0⟩ 800 600).drop 128 = List.replicate 128 0 :=
  ⟨(edid_size_matches ⟨0, 0⟩ 800 600).1,
   (edid_size_matches ⟨0, 0⟩ 800 600).2.2.2 (by decide)⟩

/-! ## Map lemmas -/

theorem mapLookup_mapInsert_self (m : List (String × VirtualDisplayInfo))
    (k : String) (v : VirtualDisplayInfo) :
    mapLookup (mapInsert m k v) k = some v := by
  induction m with
  | nil => simp [mapInsert, mapLookup]
  | cons p rest ih =>
    obtain ⟨k', v'⟩ := p
    by_cases hk : k' = k <;> simp [mapInsert, mapLookup, hk, ih]

theorem mapInsert_length_of_mem (m : List (String × VirtualDisplayInfo))
    (k : String) (v old : VirtualDisplayInfo)
    (h : mapLookup m k = some old) :
    (mapInsert m k v).length = m.length := by
  induction m with
  | nil => simp [mapLookup] at h
  | cons p rest ih =>
    obtain ⟨k', v'⟩ := p
    by_cases hk : k' = k
    · simp [mapInsert, hk]
    · simp only [mapLookup, if_neg hk] at h
      simp [mapInsert, hk, ih h]

theorem mapInsert_keys_of_mem (m : List (String × VirtualDisplayInfo))
    (k : String) (v old : VirtualDisplayInfo)
    (h : mapLookup m k = some old) :
    (mapInsert m k v).map Prod.fst = m.map Prod.fst := by
  induction m with
  | nil => simp [mapLookup] at h
  | cons p rest ih =>
    obtain ⟨k', v'⟩ := p
    by_cases hk : k' = k
    · simp [mapInsert, hk]
    · simp only [mapLookup, if_neg hk] at h
      simp [mapInsert, hk, ih h]

theorem mapLookup_mem_keys (m : List (String × VirtualDisplayInfo))
    (k : String) (v : VirtualDisplayInfo)
    (h : mapLookup m k = some v) : k ∈ m.map Prod.fst := by
  induction m with
  | nil => simp [mapLookup] at h
  | cons p rest ih =>
    obtain ⟨k', v'⟩ := p
    by_cases hk : k' = k
    · simp [hk]
    · simp only [mapLookup, if_neg hk] at h
      simp [ih h]

theorem mapInsert_forall (P : VirtualDisplayInfo → Prop)
    (m : List (String × VirtualDisplayInfo)) (k : String) (v : VirtualDisplayInfo)
    (hm : ∀ p ∈ m, P p.2) (hv : P v) :
    ∀ p ∈ mapInsert m k v, P p.2 := by
  induction m with
  | nil => simpa [mapInsert] using hv
  | cons q rest ih =>
    obtain ⟨k', v'⟩ := q
    by_cases hk : k' = k
    · simp only [mapInsert, if_pos hk]
      intro p hp
      rcases List.mem_cons.mp hp with h | h
      · subst h; exact hv
      · exact hm p (List.mem_cons_of_mem _ h)
    · simp only [mapInsert, if_neg hk]
      intro p hp
      rcases List.mem_cons.mp hp with h | h
      · subst h; exact hm _ (List.mem_cons_self _ _)
      · exact ih (fun q hq => hm q (List.mem_cons_of_mem _ hq)) p h

theorem mapErase_forall (P : VirtualDisplayInfo → Prop)
    (m : List (String × VirtualDisplayInfo)) (k : String)
    (hm : ∀ p ∈ m, P p.2) :
    ∀ p ∈ mapErase m k, P p.2 := by
  induction m with
  | nil => simp [mapErase]
  | cons q rest ih =>
    obtain ⟨k', v'⟩ := q
    by_cases hk : k' = k
    · simp only [mapErase, if_pos hk]
      exact fun p hp => hm p (List.mem_cons_of_mem _ hp)
    · simp only [mapErase, if_neg hk]
      intro p hp
      rcases List.mem_cons.mp hp with h | h
      · subst h; exact hm _ (List.mem_cons_self _ _)
      · exact ih (fun q hq => hm q (List.mem_cons_of_mem _ hq)) p h

theorem generate_display_name_ne_empty (g : String) :
    generate_display_name g ≠ "" := by
  intro h
  have := congrArg String.length h
  simp [generate_display_name, String.length_append] at this
  exact absurd this.1 (by decide)

/-! ## Claims about the lifecycle operations -/

/-- C3: `createVirtualDisplay` returns the empty string exactly when the driver
status is not `OK`; when the status is `OK`, the returned name is the tag
"VIRTUAL-" followed by the first 8 characters of the UUID string, and a record
keyed by the UUID string is inserted into the registry. -/
theorem createVirtualDisplay_empty_iff_not_ready (env : EvdiEnv) (st : VState)
    (g : String) (w h f : Nat) :
    ((createVirtualDisplay env st g w h f).2.1 = "" ↔
      st.driver_status ≠ DRIVER_STATUS.OK) ∧
    (st.driver_status = DRIVER_STATUS.OK →
      (createVirtualDisplay env st g w h f).2.1 = "VIRTUAL-" ++ g.take 8 ∧
      (mapLookup (createVirtualDisplay env st g w h f).1.virtual_displays
        g).isSome = true) := by
  by_cases hst : st.driver_status = DRIVER_STATUS.OK
  · unfold createVirtualDisplay
    rw [if_neg (by simp [hst])]
    refine ⟨?_, fun _ => ⟨rfl, ?_⟩⟩
    · simp only [hst, ne_eq, not_true_eq_false, iff_false]
      exact generate_display_name_ne_empty g
    · simp [mapLookup_mapInsert_self]
  · unfold createVirtualDisplay
    rw [if_pos hst]
    exact ⟨by simp [hst], fun h => absurd h hst⟩

/-- Witness for C3: creating a display on a ready passthrough state yields the
derived name and registers the record. -/
theorem createVirtualDisplay_empty_iff_not_ready_witness :
    (createVirtualDisplay envUnavail stReady "0123456789ab" 1920 1080
      60000).2.1 = "VIRTUAL-" ++ "0123456789ab".take 8 ∧
    (mapLookup (createVirtualDisplay envUnavail stReady "0123456789ab" 1920 1080
      60000).1.virtual_displays "0123456789ab").isSome = true :=
  (createVirtualDisplay_empty_iff_not_ready envUnavail stReady "0123456789ab"
    1920 1080 60000).2 rfl

/-- C4: `openVDisplayDevice` always returns `OK` and leaves the driver status
`OK`, even when the library cannot be loaded or the kernel module is absent (in
which case hardware mode is disabled); a call in the `OK` state returns
immediately with the state unchanged. -/
theorem openVDisplayDevice_always_ready (env : OpenEnv) (st : VState) :
    (openVDisplayDevice env st).2 = DRIVER_STATUS.OK ∧
    (openVDisplayDevice env st).1.driver_status = DRIVER_STATUS.OK ∧
    (st.driver_status = DRIVER_STATUS.OK →
      openVDisplayDevice env st = (st, DRIVER_STATUS.OK)) ∧
    ((env.lib_load_ok = false ∨ env.module_loaded = false) →
      st.driver_status ≠ DRIVER_STATUS.OK → st.evdi_loaded = false →
      (openVDisplayDevice env st).1.evdi_available = false) := by
  unfold openVDisplayDevice
  by_cases hst : st.driver_status = DRIVER_STATUS.OK
  · rw [if_pos hst]
    exact ⟨hst, hst, fun _ => by rw [hst], fun _ hne => absurd hst hne⟩
  · rw [if_neg hst]
    refine ⟨rfl, rfl, fun h => absurd h hst, ?_⟩
    intro hdisj _ hload
    rcases hdisj with h | h <;> simp [hload, h]

/-- Witness for C4: opening an already-ready state is the identity, and opening a
fresh state with no library leaves hardware mode off. -/
theorem openVDisplayDevice_always_ready_witness :
    openVDisplayDevice ⟨false, false⟩ stReady = (stReady, DRIVER_STATUS.OK) ∧
    (openVDisplayDevice ⟨false, false⟩ initState).1.evdi_available = false :=
  ⟨(openVDisplayDevice_always_ready ⟨false, false⟩ stReady).2.2.1 rfl,
   (openVDisplayDevice_always_ready ⟨false, false⟩ initState).2.2.2
     (Or.inl rfl) (by decide) rfl⟩

/-- C5: with hardware mode disabled and the driver ready, every creation call
succeeds: the stored record is the passthrough record (`using_evdi = false`, no
handle, device index −1, device-node descriptor −1) and the returned name is
non-empty. -/
theorem passthrough_create_succeeds (env : EvdiEnv) (st : VState) (g : String)
    (w h f : Nat) (hav : st.evdi_available = false)
    (hst : st.driver_status = DRIVER_STATUS.OK) :
    mapLookup (createVirtualDisplay env st g w h f).1.virtual_displays g =
      some { name := generate_display_name g, guid_str := g, width := w,
             height := h, fps := f, device_index := -1, handle := none,
             drm_fd := -1, active := true, using_evdi := false } ∧
    (createVirtualDisplay env st g w h f).2.1 ≠ "" := by
  unfold createVirtualDisplay
  rw [if_neg (by simp [hst])]
  simp only [hav, Bool.false_eq_true, if_false]
  exact ⟨mapLookup_mapInsert_self _ _ _, generate_display_name_ne_empty g⟩

/-- Witness for C5 on a ready passthrough state. -/
theorem passthrough_create_succeeds_witness :
    mapLookup (createVirtualDisplay envUnavail stReady "abcdefgh-1234" 800 600
      60000).1.virtual_displays "abcdefgh-1234" =
      some { name := generate_display_name "abcdefgh-1234",
             guid_str := "abcdefgh-1234", width := 800, height := 600,
             fps := 60000, device_index := -1, handle := none, drm_fd := -1,
             active := true, using_evdi := false } ∧
    (createVirtualDisplay envUnavail stReady "abcdefgh-1234" 800 600
      60000).2.1 ≠ "" :=
  passthrough_create_succeeds envUnavail stReady "abcdefgh-1234" 800 600 60000
    rfl rfl

theorem updateDisplayList_not_found (deviceName : String) (w h r : Int)
    (l : List (String × VirtualDisplayInfo))
    (hl : ∀ p ∈ l, p.2.name ≠ deviceName) :
    updateDisplayList deviceName w h r l = (l, 0, []) := by
  induction l with
  | nil => rfl
  | cons p rest ih =>
    obtain ⟨k, vd⟩ := p
    have h1 : vd.name ≠ deviceName := hl (k, vd) (List.mem_cons_self _ _)
    simp only [updateDisplayList, if_neg h1]
    rw [ih (fun q hq => hl q (List.mem_cons_of_mem _ hq))]

/-- C6: reconfiguring a display name that is not in the registry returns status
0 and leaves the whole state (in particular the registry) unchanged, issuing no
hardware calls. -/
theorem reconfigure_unknown_name_noop (st : VState) (deviceName : String)
    (w h r : Int)
    (hnone : ∀ p ∈ st.virtual_displays, p.2.name ≠ deviceName) :
    changeDisplaySettings st deviceName w h r = (st, 0, []) := by
  unfold changeDisplaySettings
  rw [updateDisplayList_not_found _ _ _ _ _ hnone]

/-- Witness for C6: reconfiguring a nonexistent name on an empty registry. -/
theorem reconfigure_unknown_name_noop_witness :
    changeDisplaySettings stReady "nonexistent" 1920 1080 60000 =
      (stReady, 0, []) :=
  reconfigure_unknown_name_noop stReady "nonexistent" 1920 1080 60000
    (fun p hp => by simp [stReady] at hp)

/-! ## Watchdog claims -/

theorem getD_true_of_ne_false (o : Option Bool) (h : o ≠ some false) :
    o.getD true = true := by
  cases o with
  | none => rfl
  | some b =>
    cases b with
    | false => exact absurd rfl h
    | true => rfl

theorem watchdogLoop_count_le_one (flag : Bool) (iters : List WatchIter) :
    (watchdogLoop flag iters).2.1 ≤ 1 := by
  induction iters generalizing flag with
  | nil => simp [watchdogLoop]
  | cons it rest ih =>
    simp only [watchdogLoop]
    split
    · split
      · split
        · simp
        · exact ih _
      · simp
    · simp

theorem watchdogLoop_bad_scan_returns (pre : List WatchIter) (it : WatchIter)
    (post : List WatchIter)
    (hpre : ∀ j ∈ pre, j.flagWrite ≠ some false ∧
      scan_bad j.liveness j.regs = false)
    (hflag : it.flagWrite ≠ some false)
    (hbad : scan_bad it.liveness it.regs = true) :
    watchdogLoop true (pre ++ it :: post) = (true, 1, true) := by
  induction pre with
  | nil =>
    simp [watchdogLoop, getD_true_of_ne_false _ hflag, hbad]
  | cons j pre' ih =>
    have hj := hpre j (List.mem_cons_self _ _)
    simp only [List.cons_append, watchdogLoop,
      getD_true_of_ne_false _ hj.1, hj.2, if_true, if_false, Bool.false_eq_true]
    simpa using ih (fun q hq => hpre q (List.mem_cons_of_mem _ hq))

/-- C7: in every watchdog session in which the scan reaches a wakeup where some
hardware-backed active record reports negative liveness (all earlier wakeups
being quiet and not stopped from outside), the failure callback fires exactly
once and the loop returns there, whatever follows; and in any session whatsoever
the callback fires at most once. -/
theorem watchdog_single_shot (pre : List WatchIter) (it : WatchIter)
    (post : List WatchIter) (flag : Bool) (l : List WatchIter)
    (hpre : ∀ j ∈ pre, j.flagWrite ≠ some false ∧
      scan_bad j.liveness j.regs = false)
    (hflag : it.flagWrite ≠ some false)
    (hbad : scan_bad it.liveness it.regs = true) :
    watchdogLoop true (pre ++ it :: post) = (true, 1, true) ∧
    (watchdogLoop flag l).2.1 ≤ 1 :=
  ⟨watchdogLoop_bad_scan_returns pre it post hpre hflag hbad,
   watchdogLoop_count_le_one flag l⟩

/-- Witness for C7: a single failing wakeup yields one callback and termination;
two failing wakeups still yield at most one callback. -/
theorem watchdog_single_shot_witness :
    watchdogLoop true ([] ++ badIter :: []) = (true, 1, true) ∧
    (watchdogLoop true [badIter, badIter]).2.1 ≤ 1 :=
  watchdog_single_shot [] badIter [] true [badIter, badIter]
    (fun j hj => by simp at hj) (by decide) (by decide)

theorem watchdogLoop_fail_flag_true (flag : Bool) (iters : List WatchIter)
    (h : (watchdogLoop flag iters).2.2 = true) :
    (watchdogLoop flag iters).1 = true := by
  induction iters generalizing flag with
  | nil => simp [watchdogLoop] at h
  | cons it rest ih =>
    cases flag with
    | false => simp [watchdogLoop] at h
    | true =>
      cases hW : it.flagWrite.getD true with
      | false => simp [watchdogLoop, hW] at h
      | true =>
        cases hS : scan_bad it.liveness it.regs with
        | false =>
          have hstep : watchdogLoop true (it :: rest) = watchdogLoop true rest := by
            simp [watchdogLoop, hW, hS]
          rw [hstep] at h ⊢
          exact ih true h
        | true =>
          have hstep : watchdogLoop true (it :: rest) = (true, 1, true) := by
            simp [watchdogLoop, hW, hS]
          rw [hstep]

/-- C9: when the watchdog loop exits through the failure path, the running flag
is still `true` at exit (the thread never clears it); consequently any
subsequent `startPingThread` on a state with the flag set returns `true`
immediately without spawning a new thread, and only `closeVDisplayDevice`
resets the flag. -/
theorem watchdog_failure_leaves_flag_set (flag : Bool) (iters : List WatchIter)
    (st stc : VState)
    (hfail : (watchdogLoop flag iters).2.2 = true)
    (hrun : st.watchdog_running = true) :
    (watchdogLoop flag iters).1 = true ∧
    startPingThread st = (st, true, false) ∧
    (closeVDisplayDevice stc).1.watchdog_running = false := by
  refine ⟨watchdogLoop_fail_flag_true flag iters hfail, ?_, rfl⟩
  unfold startPingThread
  rw [if_pos hrun]

/-- Witness for C9: a failing one-wakeup session leaves the flag `true`,
`startPingThread` on a flagged state is an immediate no-op success, and closing
the driver clears the flag. -/
theorem watchdog_failure_leaves_flag_set_witness :
    (watchdogLoop true [badIter]).1 = true ∧
    startPingThread stRunning = (stRunning, true, false) ∧
    (closeVDisplayDevice stReady).1.watchdog_running = false :=
  watchdog_failure_leaves_flag_set true [badIter] stRunning stReady
    (by decide) rfl

/-! ## Registry invariant and record replacement -/

/-- Structure of a successful `createVirtualDisplay`: the result is always an
insert-or-assign of a single record keyed by the UUID string, carrying the
requested geometry and derived name, satisfying the record invariant, and the
only hardware calls issued are a connect and a device-node open. -/
theorem create_shape (env : EvdiEnv) (st : VState) (g : String) (w h f : Nat)
    (hst : st.driver_status = DRIVER_STATUS.OK) :
    ∃ vd ev,
      createVirtualDisplay env st g w h f =
        ({ st with virtual_displays := mapInsert st.virtual_displays g vd },
         generate_display_name g, ev) ∧
      vd.width = w ∧ vd.height = h ∧ vd.fps = f ∧
      vd.name = generate_display_name g ∧ vd.guid_str = g ∧
      recInv vd ∧
      (ev = [] ∨ ∃ hdl dev, ev =
        [Event.connect hdl (edid_size w h), Event.openFd dev]) := by
  have hrec0 : recInv
      { name := generate_display_name g, guid_str := g, width := w, height := h,
        fps := f, device_index := -1, handle := none, drm_fd := -1,
        active := true, using_evdi := false } := by
    unfold recInv
    exact ⟨fun hfa => Bool.noConfusion hfa, fun _ => ⟨rfl, rfl⟩⟩
  unfold createVirtualDisplay
  rw [if_neg (by simp [hst])]
  by_cases hav : st.evdi_available = true
  · by_cases hdev : find_available_evdi_device env ≥ 0
    · cases hopen : env.open_dev (find_available_evdi_device env).toNat with
      | some hdl =>
        have hrec1 : recInv
            { name := generate_display_name g, guid_str := g, width := w,
              height := h, fps := f,
              device_index := find_available_evdi_device env,
              handle := some hdl,
              drm_fd := env.drm_open (find_available_evdi_device env).toNat,
              active := true, using_evdi := true } := by
          unfold recInv
          exact ⟨fun _ => ⟨fun hno => Option.noConfusion hno, hdev⟩, fun hfa => Bool.noConfusion hfa⟩
        refine ⟨{ name := generate_display_name g, guid_str := g, width := w,
                  height := h, fps := f,
                  device_index := find_available_evdi_device env,
                  handle := some hdl,
                  drm_fd := env.drm_open (find_available_evdi_device env).toNat,
                  active := true, using_evdi := true },
                [Event.connect hdl (edid_size w h),
                 Event.openFd (find_available_evdi_device env).toNat],
                ?_, rfl, rfl, rfl, rfl, rfl, hrec1,
                Or.inr ⟨hdl, (find_available_evdi_device env).toNat, rfl⟩⟩
        simp [hav, hdev, hopen]
      | none =>
        refine ⟨{ name := generate_display_name g, guid_str := g, width := w,
                  height := h, fps := f, device_index := -1, handle := none,
                  drm_fd := -1, active := true, using_evdi := false },
                [], ?_, rfl, rfl, rfl, rfl, rfl, hrec0, Or.inl rfl⟩
        simp [hav, hdev, hopen]
    · refine ⟨{ name := generate_display_name g, guid_str := g, width := w,
                height := h, fps := f, device_index := -1, handle := none,
                drm_fd := -1, active := true, using_evdi := false },
              [], ?_, rfl, rfl, rfl, rfl, rfl, hrec0, Or.inl rfl⟩
      simp [hav, hdev]
  · refine ⟨{ name := generate_display_name g, guid_str := g, width := w,
              height := h, fps := f, device_index := -1, handle := none,
              drm_fd := -1, active := true, using_evdi := false },
            [], ?_, rfl, rfl, rfl, rfl, rfl, hrec0, Or.inl rfl⟩
    simp [hav]

theorem updateDisplayList_preserves_recInv (deviceName : String) (w h r : Int)
    (l : List (String × VirtualDisplayInfo))
    (hl : ∀ p ∈ l, recInv p.2) :
    ∀ p ∈ (updateDisplayList deviceName w h r l).1, recInv p.2 := by
  induction l with
  | nil => simp [updateDisplayList]
  | cons q rest ih =>
    obtain ⟨k, vd⟩ := q
    by_cases hn : vd.name = deviceName
    · simp only [updateDisplayList, if_pos hn]
      intro p hp
      rcases List.mem_cons.mp hp with hp | hp
      · subst hp
        exact hl (k, vd) (List.mem_cons_self _ _)
      · exact hl p (List.mem_cons_of_mem _ hp)
    · simp only [updateDisplayList, if_neg hn]
      intro p hp
      rcases List.mem_cons.mp hp with hp | hp
      · subst hp
        exact hl _ (List.mem_cons_self _ _)
      · exact ih (fun q hq => hl q (List.mem_cons_of_mem _ hq)) p hp

/-- C8: every lifecycle operation preserves the registry invariant that
`using_evdi = true` records carry a handle and a non-negative device index, and
`using_evdi = false` records carry no handle and index −1. -/
theorem operations_preserve_invariant (env : EvdiEnv) (oenv : OpenEnv)
    (st : VState) (g g2 dn : String) (w h f : Nat) (wi hi ri : Int)
    (hinv : regInv st) :
    regInv (createVirtualDisplay env st g w h f).1 ∧
    regInv (changeDisplaySettings st dn wi hi ri).1 ∧
    regInv (removeVirtualDisplay st g2).1 ∧
    regInv (openVDisplayDevice oenv st).1 ∧
    regInv (closeVDisplayDevice st).1 ∧
    regInv (startPingThread st).1 := by
  refine ⟨?_, ?_, ?_, ?_, ?_, ?_⟩
  · by_cases hst : st.driver_status = DRIVER_STATUS.OK
    · obtain ⟨vd, ev, heq, -, -, -, -, -, hrec, -⟩ :=
        create_shape env st g w h f hst
      rw [heq]
      exact mapInsert_forall _ _ _ _ hinv hrec
    · unfold createVirtualDisplay
      rw [if_pos hst]
      exact hinv
  · exact updateDisplayList_preserves_recInv dn wi hi ri st.virtual_displays hinv
  · unfold removeVirtualDisplay
    split
    · exact hinv
    · exact mapErase_forall _ _ _ hinv
  · unfold openVDisplayDevice
    split
    · exact hinv
    · exact hinv
  · exact fun p hp => absurd hp (List.not_mem_nil p)
  · unfold startPingThread
    split
    · exact hinv
    · exact hinv

/-- Witness for C8 on a ready empty-registry state. -/
theorem operations_preserve_invariant_witness :
    regInv (createVirtualDisplay envUnavail stReady "wit-c8-aa" 1920 1080
      60000).1 ∧
    regInv (changeDisplaySettings stReady "VIRTUAL-wit" 1280 720 60000).1 ∧
    regInv (removeVirtualDisplay stReady "wit-c8-bb").1 ∧
    regInv (openVDisplayDevice ⟨false, false⟩ stReady).1 ∧
    regInv (closeVDisplayDevice stReady).1 ∧
    regInv (startPingThread stReady).1 :=
  operations_preserve_invariant envUnavail ⟨false, false⟩ stReady "wit-c8-aa"
    "wit-c8-bb" "VIRTUAL-wit" 1920 1080 60000 1280 720 60000
    (fun p hp => by simp [stReady] at hp)

/-- C10: creating a display whose UUID is already a registry key succeeds and
replaces the record in place: the registry size is unchanged, the UUID keys
still hold exactly one entry for that UUID, the stored record carries the new
geometry and derived name, and the call issues no disconnect, handle close or
descriptor close for the replaced record (or any other). -/
theorem create_replaces_existing (env : EvdiEnv) (st : VState) (g : String)
    (w h f : Nat) (old : VirtualDisplayInfo)
    (hst : st.driver_status = DRIVER_STATUS.OK)
    (hold : mapLookup st.virtual_displays g = some old)
    (hnd : (st.virtual_displays.map Prod.fst).Nodup) :
    (createVirtualDisplay env st g w h f).1.virtual_displays.length =
      st.virtual_displays.length ∧
    ((createVirtualDisplay env st g w h f).1.virtual_displays.map
      Prod.fst).count g = 1 ∧
    (∃ vd, mapLookup (createVirtualDisplay env st g w h f).1.virtual_displays g
        = some vd ∧ vd.width = w ∧ vd.height = h ∧ vd.fps = f ∧
        vd.name = generate_display_name g) ∧
    (∀ e ∈ (createVirtualDisplay env st g w h f).2.2,
      (∀ hdl : Nat, e ≠ Event.disconnect hdl ∧ e ≠ Event.closeHandle hdl) ∧
      (∀ fd : Int, e ≠ Event.closeFd fd)) := by
  obtain ⟨vd, ev, heq, hwd, hht, hfp, hname, hguid, hrec, hev⟩ :=
    create_shape env st g w h f hst
  rw [heq]
  refine ⟨mapInsert_length_of_mem _ _ _ _ hold, ?_,
    ⟨vd, mapLookup_mapInsert_self _ _ _, hwd, hht, hfp, hname⟩, ?_⟩
  · rw [mapInsert_keys_of_mem _ _ _ _ hold]
    exact List.count_eq_one_of_mem hnd (mapLookup_mem_keys _ _ _ hold)
  · rcases hev with hev | ⟨hdl, dev, hev⟩ <;> subst hev
    · exact fun e he => absurd he (List.not_mem_nil e)
    · intro e he
      rcases List.mem_cons.mp he with he | he
      · subst he
        exact ⟨fun hdl2 => ⟨by simp, by simp⟩, fun fd => by simp⟩
      · rcases List.mem_cons.mp he with he | he
        · subst he
          exact ⟨fun hdl2 => ⟨by simp, by simp⟩, fun fd => by simp⟩
        · exact absurd he (List.not_mem_nil e)

/-- Witness for C10: re-creating the already-present UUID on a one-record
registry. -/
theorem create_replaces_existing_witness :
    (createVirtualDisplay envUnavail stWithOne "0123abcd-0" 640 480
      30000).1.virtual_displays.length =
      stWithOne.virtual_displays.length ∧
    ((createVirtualDisplay envUnavail stWithOne "0123abcd-0" 640 480
      30000).1.virtual_displays.map Prod.fst).count "0123abcd-0" = 1 ∧
    (∃ vd, mapLookup (createVirtualDisplay envUnavail stWithOne "0123abcd-0" 640
        480 30000).1.virtual_displays "0123abcd-0" = some vd ∧
      vd.width = 640 ∧ vd.height = 480 ∧ vd.fps = 30000 ∧
      vd.name = generate_display_name "0123abcd-0") ∧
    (∀ e ∈ (createVirtualDisplay envUnavail stWithOne "0123abcd-0" 640 480
        30000).2.2,
      (∀ hdl : Nat, e ≠ Event.disconnect hdl ∧ e ≠ Event.closeHandle hdl) ∧
      (∀ fd : Int, e ≠ Event.closeFd fd)) :=
  create_replaces_existing envUnavail stWithOne "0123abcd-0" 640 480 30000
    hwRec rfl (by simp [stWithOne, mapLookup]) (by simp [stWithOne])

end VDISPLAY
